import Mathlib

/-!
Verification of `ocr_extract.py` (neb-screen-keys).

The script is a linear command-line program: a module-level import guard,
then `main()` which validates `sys.argv`, checks that the image path exists,
and runs a model inside a `try`/`except` block, printing exactly one JSON
object to standard output and exiting with 0 or 1.

We embed the script shallowly:
* Python values that can flow out of the model call are a closed inductive
  `PyVal` (strings, integers, `None`, dictionaries), with `pyStr`/`pyRepr`
  mirroring the Python `str`/`repr` functions on that closed set.
* The environment `Env` carries everything the process observes: whether the
  `import` statements succeed (and the `ImportError` text), `sys.argv`, which
  paths exist on disk, and the outcomes of the three fallible library calls
  inside the `try` block (model load, image open, inference).
* `run : Env → List JObj × Nat` returns the sequence of JSON objects printed
  to standard output (status messages go to stderr and are not part of it)
  and the process exit code.
-/

mutual
/-- Python values a model call can return, as a closed set of shapes.
Dictionaries are entry lists with distinct keys (`PyEntries`). -/
inductive PyVal where
  | vstr (s : String)
  | vint (n : Int)
  | vnone
  | vdict (entries : PyEntries)

/-- Entries of a Python dictionary (key/value list, first match wins). -/
inductive PyEntries where
  | nil
  | cons (k : String) (v : PyVal) (rest : PyEntries)
end

mutual
/-- Python `repr` on the closed value set: strings quoted with U+0027, ints
in decimal, `None`, dicts rendered with braces and comma-separated quoted
keys (string escaping is not modelled; all concrete inputs below avoid
quote characters inside strings). -/
def pyRepr : PyVal → String
  | .vstr s => "\x27" ++ s ++ "\x27"
  | .vint n => toString n
  | .vnone => "None"
  | .vdict es => "\x7b" ++ pyReprEntries es ++ "\x7d"

/-- Comma-separated rendering of dictionary entries, values via `repr`
(as the Python dict `repr`/`str` does). -/
def pyReprEntries : PyEntries → String
  | .nil => ""
  | .cons k v .nil => "\x27" ++ k ++ "\x27: " ++ pyRepr v
  | .cons k v rest => "\x27" ++ k ++ "\x27: " ++ pyRepr v ++ ", " ++ pyReprEntries rest
end

/-- Python `str`: identity on strings, `repr` on everything else in the
closed set. -/
def pyStr : PyVal → String
  | .vstr s => s
  | v => pyRepr v

/-- Python `d.get(key)`: value of the first entry with the given key. -/
def pyGet : PyEntries → String → Option PyVal
  | .nil, _ => none
  | .cons k v rest, key => if k = key then some v else pyGet rest key

deriving instance DecidableEq for PyVal

/-- One JSON object printed by the script: an ordered key/value list, as
built by the `json.dumps` call sites. -/
abbrev JObj := List (String × PyVal)

/-- Whether a JSON object carries the given key. -/
def hasKeyB (o : JObj) (k : String) : Bool := o.any fun p => p.1 = k

/-- Whether a Python value is a string. -/
def PyVal.isStr : PyVal → Bool
  | .vstr _ => true
  | _ => false

/-- Everything the process observes from its environment: whether the
module-level imports succeed (with the `ImportError` text), `sys.argv`,
which filesystem paths exist, and the outcomes of the three fallible calls
inside the `try` block (`AutoModel.from_pretrained`, `Image.open`,
`model(image)`), each either an exception message or a success value. -/
structure Env where
  depsOk : Bool
  depDetail : String
  argv : List String
  pathExists : String → Bool
  loadModel : Except String Unit
  openImage : Except String Unit
  infer : Except String PyVal

/-- The result-extraction step of `main` (lines 41–46):
`result.get("text", str(result))` for dicts, identity on strings,
`str(result)` otherwise. -/
def normalizeResult : PyVal → PyVal
  | .vdict es => (pyGet es "text").getD (.vstr (pyStr (.vdict es)))
  | .vstr s => .vstr s
  | v => .vstr (pyStr v)

/-- The whole script: import guard, then `main()`.  Returns the JSON objects
printed to standard output, in order, and the process exit code. -/
def run (env : Env) : List JObj × Nat :=
  if env.depsOk = false then
    ([[("error", .vstr ("Missing dependencies: " ++ env.depDetail
        ++ ". Install with: pip install transformers pillow torch"))]], 1)
  else if env.argv.length < 2 then
    ([[("error", .vstr "Usage: python3 ocr_extract.py <image_path>")]], 1)
  else
    let image_path := env.argv.getD 1 ""
    if env.pathExists image_path = false then
      ([[("error", .vstr ("Image file not found: " ++ image_path))]], 1)
    else
      match env.loadModel with
      | .error e => ([[("error", .vstr ("OCR processing failed: " ++ e))]], 1)
      | .ok _ =>
        match env.openImage with
        | .error e => ([[("error", .vstr ("OCR processing failed: " ++ e))]], 1)
        | .ok _ =>
          match env.infer with
          | .error e => ([[("error", .vstr ("OCR processing failed: " ++ e))]], 1)
          | .ok result => ([[("text", normalizeResult result)]], 0)

/-- The normalization precedence as the spec states it (§4.1 step e): if the
result is a mapping, use its `text` field if present, otherwise its full
string representation; if the result is already a string, use it directly;
otherwise, use its string representation.  Stated separately from
`normalizeResult` (which is translated from the source) so the two can be
compared. -/
def normalizeSpec : PyVal → PyVal
  | .vdict es =>
    match pyGet es "text" with
    | some v => v
    | none => .vstr (pyStr (.vdict es))
  | .vstr s => .vstr s
  | v => .vstr (pyStr v)

/-- Environment for a successful run whose model result is the integer 42. -/
def envInt42 : Env :=
  { depsOk := true, depDetail := "", argv := ["ocr_extract.py", "img.png"],
    pathExists := fun _ => true, loadModel := .ok (), openImage := .ok (),
    infer := .ok (.vint 42) }

/-- Environment with unimportable dependencies and no positional argument. -/
def envNoDepsNoArg : Env :=
  { depsOk := false, depDetail := "No module named transformers",
    argv := ["ocr_extract.py"], pathExists := fun _ => false,
    loadModel := .ok (), openImage := .ok (), infer := .ok .vnone }

/-- Environment with importable dependencies and no positional argument. -/
def envNoArg : Env :=
  { depsOk := true, depDetail := "", argv := ["ocr_extract.py"],
    pathExists := fun _ => true, loadModel := .ok (), openImage := .ok (),
    infer := .ok .vnone }

/-- Environment where the model result is a dictionary whose `text` entry is
the non-string integer 7. -/
def envDictIntText : Env :=
  { depsOk := true, depDetail := "", argv := ["ocr_extract.py", "img.png"],
    pathExists := fun _ => true, loadModel := .ok (), openImage := .ok (),
    infer := .ok (.vdict (.cons "text" (.vint 7) .nil)) }

/-- Environment where inference raises with message "out of memory". -/
def envOom : Env :=
  { depsOk := true, depDetail := "", argv := ["ocr_extract.py", "img.png"],
    pathExists := fun _ => true, loadModel := .ok (), openImage := .ok (),
    infer := .error "out of memory" }

/-- Environment whose image path does not exist on disk. -/
def envNoFile : Env :=
  { depsOk := true, depDetail := "",
    argv := ["ocr_extract.py", "/tmp/does-not-exist.png"],
    pathExists := fun _ => false, loadModel := .ok (), openImage := .ok (),
    infer := .ok .vnone }

/-- Environment for a successful run whose model result is an empty dict. -/
def envDictEmpty : Env :=
  { depsOk := true, depDetail := "", argv := ["ocr_extract.py", "img.png"],
    pathExists := fun _ => true, loadModel := .ok (), openImage := .ok (),
    infer := .ok (.vdict .nil) }

/-- Environment for a successful run, no extra arguments. -/
def envPlain : Env :=
  { depsOk := true, depDetail := "", argv := ["ocr_extract.py", "a.png"],
    pathExists := fun _ => true, loadModel := .ok (), openImage := .ok (),
    infer := .ok (.vstr "HELLO") }

/-- `envPlain` with two extra positional arguments appended. -/
def envPlainExtra : Env :=
  { depsOk := true, depDetail := "",
    argv := ["ocr_extract.py", "a.png", "extra", "more"],
    pathExists := fun _ => true, loadModel := .ok (), openImage := .ok (),
    infer := .ok (.vstr "HELLO") }

/- Helper lemmas: one evaluation lemma per control-flow branch of `run`. -/

/-- Failing imports short-circuit everything else. -/
theorem run_deps_fail (env : Env) (h : env.depsOk = false) :
    run env = ([[("error", PyVal.vstr ("Missing dependencies: " ++ env.depDetail
      ++ ". Install with: pip install transformers pillow torch"))]], 1) := by
  simp [run, h]

/-- With imports fine and fewer than two argv entries, the usage error. -/
theorem run_usage (env : Env) (h : env.depsOk = true)
    (h2 : env.argv.length < 2) :
    run env = ([[("error", PyVal.vstr "Usage: python3 ocr_extract.py <image_path>")]], 1) := by
  simp [run, h, h2]

/-- With imports fine, an argument given, and the path absent, the
file-not-found error. -/
theorem run_file_missing (env : Env) (h : env.depsOk = true)
    (h2 : ¬ env.argv.length < 2)
    (h3 : env.pathExists (env.argv.getD 1 "") = false) :
    run env = ([[("error", PyVal.vstr ("Image file not found: "
      ++ env.argv.getD 1 ""))]], 1) := by
  simp only [List.getD, List.get?_eq_getElem?] at h3 ⊢
  simp [run, h, h2, h3]

/-- A model-load failure is wrapped as a processing error. -/
theorem run_load_fail (env : Env) (e : String) (h : env.depsOk = true)
    (h2 : ¬ env.argv.length < 2)
    (h3 : env.pathExists (env.argv.getD 1 "") = true)
    (h4 : env.loadModel = .error e) :
    run env = ([[("error", PyVal.vstr ("OCR processing failed: " ++ e))]], 1) := by
  simp only [List.getD, List.get?_eq_getElem?] at h3
  simp [run, h, h2, h3, h4]

/-- An image-open failure is wrapped as a processing error. -/
theorem run_open_fail (env : Env) (e : String) (h : env.depsOk = true)
    (h2 : ¬ env.argv.length < 2)
    (h3 : env.pathExists (env.argv.getD 1 "") = true)
    (h4 : env.loadModel = .ok ()) (h5 : env.openImage = .error e) :
    run env = ([[("error", PyVal.vstr ("OCR processing failed: " ++ e))]], 1) := by
  simp only [List.getD, List.get?_eq_getElem?] at h3
  simp [run, h, h2, h3, h4, h5]

/-- An inference failure is wrapped as a processing error. -/
theorem run_infer_fail (env : Env) (e : String) (h : env.depsOk = true)
    (h2 : ¬ env.argv.length < 2)
    (h3 : env.pathExists (env.argv.getD 1 "") = true)
    (h4 : env.loadModel = .ok ()) (h5 : env.openImage = .ok ())
    (h6 : env.infer = .error e) :
    run env = ([[("error", PyVal.vstr ("OCR processing failed: " ++ e))]], 1) := by
  simp only [List.getD, List.get?_eq_getElem?] at h3
  simp [run, h, h2, h3, h4, h5, h6]

/-- The success branch: the normalized result, exit code 0. -/
theorem run_success (env : Env) (r : PyVal) (h : env.depsOk = true)
    (h2 : ¬ env.argv.length < 2)
    (h3 : env.pathExists (env.argv.getD 1 "") = true)
    (h4 : env.loadModel = .ok ()) (h5 : env.openImage = .ok ())
    (h6 : env.infer = .ok r) :
    run env = ([[("text", normalizeResult r)]], 0) := by
  simp only [List.getD, List.get?_eq_getElem?] at h3
  simp [run, h, h2, h3, h4, h5, h6]

/-- Every run either prints a single error object and exits 1, or prints the
single normalized-text object and exits 0. -/
theorem run_cases (env : Env) :
    (∃ s, run env = ([[("error", PyVal.vstr s)]], 1)) ∨
    (∃ r, env.infer = Except.ok r ∧
      run env = ([[("text", normalizeResult r)]], 0)) := by
  by_cases hd : env.depsOk = false
  · exact .inl ⟨_, run_deps_fail env hd⟩
  · have hd1 : env.depsOk = true := by
      cases h : env.depsOk
      · exact absurd h hd
      · rfl
    by_cases ha : env.argv.length < 2
    · exact .inl ⟨_, run_usage env hd1 ha⟩
    · by_cases hf : env.pathExists (env.argv.getD 1 "") = false
      · exact .inl ⟨_, run_file_missing env hd1 ha hf⟩
      · have hf1 : env.pathExists (env.argv.getD 1 "") = true := by
          cases h : env.pathExists (env.argv.getD 1 "")
          · exact absurd h hf
          · rfl
        cases hlm : env.loadModel with
        | error e => exact .inl ⟨_, run_load_fail env e hd1 ha hf1 hlm⟩
        | ok u =>
          cases u
          cases hoi : env.openImage with
          | error e => exact .inl ⟨_, run_open_fail env e hd1 ha hf1 hlm hoi⟩
          | ok u2 =>
            cases u2
            cases hin : env.infer with
            | error e => exact .inl ⟨_, run_infer_fail env e hd1 ha hf1 hlm hoi hin⟩
            | ok r => exact .inr ⟨r, rfl, run_success env r hd1 ha hf1 hlm hoi hin⟩

/- Claim theorems. -/

/-- C1: on the success path, the emitted text follows the spec precedence
(mapping: `text` field if present, else its string representation; string:
itself; anything else: its string representation) for every possible model
result value. -/
theorem result_normalization_follows_precedence (env : Env) (r : PyVal)
    (hdeps : env.depsOk = true) (harg : 2 ≤ env.argv.length)
    (hfile : env.pathExists (env.argv.getD 1 "") = true)
    (hload : env.loadModel = .ok ()) (hopen : env.openImage = .ok ())
    (hinfer : env.infer = .ok r) :
    run env = ([[("text", normalizeSpec r)]], 0) := by
  have hlt : ¬ env.argv.length < 2 := Nat.not_lt.mpr harg
  have h := run_success env r hdeps hlt hfile hload hopen hinfer
  rw [h]
  have : normalizeResult r = normalizeSpec r := by
    cases r with
    | vdict es =>
      simp only [normalizeResult, normalizeSpec]
      cases pyGet es "text" <;> rfl
    | vstr s => rfl
    | vint n => rfl
    | vnone => rfl
  rw [this]

/-- C1 witness: a model result of integer 42 yields output with text "42". -/
theorem result_normalization_follows_precedence_witness :
    run envInt42 = ([[("text", PyVal.vstr "42")]], 0) := by
  have h := result_normalization_follows_precedence envInt42 (.vint 42)
    rfl (by decide) rfl rfl rfl rfl
  rw [h]
  decide

/-- C2 counterexample: with unimportable dependencies and no positional
argument, the output is the missing-dependency error, not the usage error —
so the missing-argument check does not run before the dependency check. -/
theorem usage_before_deps_counterexample :
    (run envNoDepsNoArg).1 =
      [[("error", PyVal.vstr ("Missing dependencies: No module named transformers"
        ++ ". Install with: pip install transformers pillow torch"))]]
    ∧ (run envNoDepsNoArg).1 ≠
      [[("error", PyVal.vstr "Usage: python3 ocr_extract.py <image_path>")]] := by
  constructor
  · rfl
  · decide

/-- C2 amended: with importable dependencies, an invocation with no
positional argument writes exactly the usage error and exits non-zero,
regardless of any other condition — this check runs before the
file-existence check but after the dependency check. -/
theorem usage_error_when_arg_missing (env : Env)
    (hdeps : env.depsOk = true) (harg : env.argv.length < 2) :
    run env = ([[("error", PyVal.vstr "Usage: python3 ocr_extract.py <image_path>")]], 1) :=
  run_usage env hdeps harg

/-- C2 amended witness: a concrete no-argument invocation with importable
dependencies yields the usage error and exit status 1. -/
theorem usage_error_when_arg_missing_witness :
    run envNoArg = ([[("error", PyVal.vstr "Usage: python3 ocr_extract.py <image_path>")]], 1) :=
  usage_error_when_arg_missing envNoArg rfl (by decide)

/-- C3: whenever the third-party imports fail, the missing-dependency error
is emitted with exit status 1, whatever `argv` and the rest of the
environment are — the check precedes argument parsing. -/
theorem missing_deps_error_first (env : Env)
    (hdeps : env.depsOk = false) :
    run env = ([[("error", PyVal.vstr ("Missing dependencies: " ++ env.depDetail
      ++ ". Install with: pip install transformers pillow torch"))]], 1) :=
  run_deps_fail env hdeps

/-- C3 witness: a concrete invocation with failing imports (and even a
missing argument) yields the dependency error and exit status 1. -/
theorem missing_deps_error_first_witness :
    run envNoDepsNoArg = ([[("error", PyVal.vstr ("Missing dependencies: "
      ++ "No module named transformers"
      ++ ". Install with: pip install transformers pillow torch"))]], 1) :=
  missing_deps_error_first envNoDepsNoArg rfl

/-- C4 counterexample: a model result of a dictionary whose `text` entry is
the integer 7 yields the output object with a non-string `text` value, so
the output shape is not always string-valued. -/
theorem output_shape_counterexample :
    run envDictIntText = ([[("text", PyVal.vint 7)]], 0)
    ∧ PyVal.isStr (PyVal.vint 7) = false := by
  constructor
  · rfl
  · rfl

/-- C4 amended: every invocation writes exactly one JSON object, carrying a
single key which is either `error` or `text`; the `error` payload is always
a string, and the `text` payload is a string unless the model result was a
mapping whose `text` entry held a non-string value, which is emitted
unchanged. -/
theorem single_output_envelope (env : Env) :
    ∃ k v, (run env).1 = [[(k, v)]] ∧
      ((k = "error" ∧ v.isStr = true) ∨
       (k = "text" ∧ (v.isStr = true ∨
         ∃ es, env.infer = Except.ok (PyVal.vdict es) ∧ pyGet es "text" = some v))) := by
  rcases run_cases env with ⟨s, hs⟩ | ⟨r, hr, hs⟩
  · exact ⟨"error", .vstr s, by rw [hs], .inl ⟨rfl, rfl⟩⟩
  · refine ⟨"text", normalizeResult r, by rw [hs], .inr ⟨rfl, ?_⟩⟩
    cases r with
    | vstr s => exact .inl rfl
    | vint n => exact .inl rfl
    | vnone => exact .inl rfl
    | vdict es =>
      cases hg : pyGet es "text" with
      | none => exact .inl (by simp [normalizeResult, hg, PyVal.isStr])
      | some v =>
        exact .inr ⟨es, hr, by simp [normalizeResult, hg]⟩

/-- C5: the exit status is 0 exactly when the single output object carries
the `text` key, and non-zero exactly when it carries the `error` key. -/
theorem exit_code_matches_output_key (env : Env) :
    ∃ o, (run env).1 = [o] ∧
      ((run env).2 = 0 ↔ hasKeyB o "text" = true) ∧
      ((run env).2 ≠ 0 ↔ hasKeyB o "error" = true) := by
  rcases run_cases env with ⟨s, hs⟩ | ⟨r, _, hs⟩
  · refine ⟨[("error", .vstr s)], by rw [hs], ?_, ?_⟩ <;> rw [hs] <;> simp [hasKeyB]
  · refine ⟨[("text", normalizeResult r)], by rw [hs], ?_, ?_⟩ <;> rw [hs] <;> simp [hasKeyB]

/-- C6: any failure of model load, image open, or inference is caught and
wrapped as the processing error, embedding the original message, with exit
status 1. -/
theorem processing_failure_wrapped (env : Env) (e : String)
    (hdeps : env.depsOk = true) (harg : 2 ≤ env.argv.length)
    (hfile : env.pathExists (env.argv.getD 1 "") = true)
    (hfail : env.loadModel = .error e
      ∨ (env.loadModel = .ok () ∧ env.openImage = .error e)
      ∨ (env.loadModel = .ok () ∧ env.openImage = .ok () ∧ env.infer = .error e)) :
    run env = ([[("error", PyVal.vstr ("OCR processing failed: " ++ e))]], 1) := by
  have hlt : ¬ env.argv.length < 2 := Nat.not_lt.mpr harg
  rcases hfail with h1 | ⟨h1, h2⟩ | ⟨h1, h2, h3⟩
  · exact run_load_fail env e hdeps hlt hfile h1
  · exact run_open_fail env e hdeps hlt hfile h1 h2
  · exact run_infer_fail env e hdeps hlt hfile h1 h2 h3

/-- C6 witness: an inference exception with message "out of memory" yields
the wrapped processing error and exit status 1. -/
theorem processing_failure_wrapped_witness :
    run envOom = ([[("error", PyVal.vstr "OCR processing failed: out of memory")]], 1) := by
  have h := processing_failure_wrapped envOom "out of memory" rfl (by decide) rfl
    (.inr (.inr ⟨rfl, rfl, rfl⟩))
  rw [h]
  decide

/-- C7: a positional argument whose path does not exist yields the
file-not-found error with the path interpolated and exit status 1, and the
outcome is independent of the model-load, image-open and inference
behaviour. -/
theorem missing_file_error (env : Env)
    (hdeps : env.depsOk = true) (harg : 2 ≤ env.argv.length)
    (hfile : env.pathExists (env.argv.getD 1 "") = false) :
    run env = ([[("error", PyVal.vstr ("Image file not found: "
        ++ env.argv.getD 1 ""))]], 1)
    ∧ ∀ lm oi inf,
        run { env with loadModel := lm, openImage := oi, infer := inf } = run env := by
  have hlt : ¬ env.argv.length < 2 := Nat.not_lt.mpr harg
  have h := run_file_missing env hdeps hlt hfile
  refine ⟨h, fun lm oi inf => ?_⟩
  have h2 := run_file_missing { env with loadModel := lm, openImage := oi, infer := inf }
    hdeps hlt hfile
  rw [h2, h]

/-- C7 witness: the spec example path yields exactly the interpolated error
message and exit status 1. -/
theorem missing_file_error_witness :
    run envNoFile = ([[("error",
      PyVal.vstr "Image file not found: /tmp/does-not-exist.png")]], 1) := by
  have h := (missing_file_error envNoFile rfl (by decide) rfl).1
  rw [h]
  decide

/-- C8: normalization is total — for every possible model result value the
run reaches the success envelope with some text value; no result shape makes
the normalization step itself fail. -/
theorem normalization_total (env : Env) (r : PyVal)
    (hdeps : env.depsOk = true) (harg : 2 ≤ env.argv.length)
    (hfile : env.pathExists (env.argv.getD 1 "") = true)
    (hload : env.loadModel = .ok ()) (hopen : env.openImage = .ok ())
    (hinfer : env.infer = .ok r) :
    ∃ t, normalizeResult r = t ∧ run env = ([[("text", t)]], 0) := by
  have hlt : ¬ env.argv.length < 2 := Nat.not_lt.mpr harg
  exact ⟨normalizeResult r, rfl, run_success env r hdeps hlt hfile hload hopen hinfer⟩

/-- C8 witness: an empty-dictionary model result still reaches the success
envelope with exit status 0. -/
theorem normalization_total_witness :
    (run envDictEmpty).2 = 0 := by
  obtain ⟨t, _, h2⟩ := normalization_total envDictEmpty (.vdict .nil)
    rfl (by decide) rfl rfl rfl rfl
  rw [h2]

/-- C9: whenever the single output object carries the `error` key, the exit
status is exactly 1 (the spec only promises non-zero). -/
theorem failure_exit_code_is_one (env : Env) (o : JObj)
    (hmem : o ∈ (run env).1) (herr : hasKeyB o "error" = true) :
    (run env).2 = 1 := by
  rcases run_cases env with ⟨s, hs⟩ | ⟨r, _, hs⟩
  · rw [hs]
  · rw [hs] at hmem ⊢
    simp only [List.mem_singleton] at hmem
    subst hmem
    simp [hasKeyB] at herr

/-- C9 witness: the concrete missing-argument failure exits with status 1. -/
theorem failure_exit_code_is_one_witness :
    (run envNoArg).2 = 1 :=
  failure_exit_code_is_one envNoArg
    [("error", PyVal.vstr "Usage: python3 ocr_extract.py <image_path>")]
    (by decide) (by decide)

/-- C10: only the first positional argument influences behaviour — two
invocations agreeing on the environment and on `argv[1]`, each with at least
one positional argument, produce identical output and exit status however
many extra arguments follow. -/
theorem extra_args_ignored (e1 e2 : Env)
    (hdeps : e1.depsOk = e2.depsOk) (hdet : e1.depDetail = e2.depDetail)
    (hfs : e1.pathExists = e2.pathExists)
    (hlm : e1.loadModel = e2.loadModel) (hoi : e1.openImage = e2.openImage)
    (hinf : e1.infer = e2.infer)
    (h1 : 2 ≤ e1.argv.length) (h2 : 2 ≤ e2.argv.length)
    (harg : e1.argv.getD 1 "" = e2.argv.getD 1 "") :
    run e1 = run e2 := by
  have n1 : ¬ e1.argv.length < 2 := Nat.not_lt.mpr h1
  have n2 : ¬ e2.argv.length < 2 := Nat.not_lt.mpr h2
  by_cases hd : e1.depsOk = false
  · rw [run_deps_fail e1 hd, run_deps_fail e2 (hdeps ▸ hd), hdet]
  · have hb1 : e1.depsOk = true := by
      cases h : e1.depsOk
      · exact absurd h hd
      · rfl
    have hb2 : e2.depsOk = true := by rw [← hdeps]; exact hb1
    by_cases hf : e1.pathExists (e1.argv.getD 1 "") = false
    · have hf2 : e2.pathExists (e2.argv.getD 1 "") = false := by
        rw [← hfs, ← harg]; exact hf
      rw [run_file_missing e1 hb1 n1 hf, run_file_missing e2 hb2 n2 hf2, harg]
    · have hf1 : e1.pathExists (e1.argv.getD 1 "") = true := by
        cases h : e1.pathExists (e1.argv.getD 1 "")
        · exact absurd h hf
        · rfl
      have hf2 : e2.pathExists (e2.argv.getD 1 "") = true := by
        rw [← hfs, ← harg]; exact hf1
      cases hlm1 : e1.loadModel with
      | error e =>
        rw [run_load_fail e1 e hb1 n1 hf1 hlm1,
          run_load_fail e2 e hb2 n2 hf2 (hlm ▸ hlm1)]
      | ok u =>
        cases u
        cases hoi1 : e1.openImage with
        | error e =>
          rw [run_open_fail e1 e hb1 n1 hf1 hlm1 hoi1,
            run_open_fail e2 e hb2 n2 hf2 (hlm ▸ hlm1) (hoi ▸ hoi1)]
        | ok u2 =>
          cases u2
          cases hin1 : e1.infer with
          | error e =>
            rw [run_infer_fail e1 e hb1 n1 hf1 hlm1 hoi1 hin1,
              run_infer_fail e2 e hb2 n2 hf2 (hlm ▸ hlm1) (hoi ▸ hoi1) (hinf ▸ hin1)]
          | ok r =>
            rw [run_success e1 r hb1 n1 hf1 hlm1 hoi1 hin1,
              run_success e2 r hb2 n2 hf2 (hlm ▸ hlm1) (hoi ▸ hoi1) (hinf ▸ hin1)]

/-- C10 witness: appending two extra positional arguments leaves the output
and exit status unchanged. -/
theorem extra_args_ignored_witness :
    run envPlain = run envPlainExtra :=
  extra_args_ignored envPlain envPlainExtra rfl rfl rfl rfl rfl rfl
    (by decide) (by decide) rfl
